import Mathlib

/-!
Verification of the request-handling pipeline and error-normalization layer
of the `webapi-cicd` repository (FastAPI scaffold): error handlers
(`app/core/error_handlers.py`), middleware (`app/core/middleware.py`),
configuration validation (`app/core/config.py`), exceptions
(`app/core/exceptions.py`) and the health endpoint
(`app/api/v1/endpoints/health.py`), shallowly embedded in Lean.
-/

/-- A JSON value, the wire shape produced by the handlers. -/
inductive Json where
  | null : Json
  | bool (b : Bool) : Json
  | str (s : String) : Json
  | num (n : Int) : Json
  | arr (elems : List Json) : Json
  | obj (fields : List (String × Json)) : Json
deriving Repr

/-- Field lookup on a JSON object (first occurrence of the key), `none` on
    non-objects and absent keys. -/
def Json.getField : Json → String → Option Json
  | .obj fields, k => (fields.find? (fun p => p.1 = k)).map (fun p => p.2)
  | _, _ => none

/-- Log severity levels of the Python `logging` module. -/
inductive LogLevel where
  | debug | info | warning | error | critical
deriving DecidableEq, Repr

/-- One structured log record: severity, message, the `extra` fields, and
    whether `exc_info=True` (full traceback) was requested. -/
structure LogEntry where
  level : LogLevel
  message : String
  extra : List (String × Json)
  exc_info : Bool := false
deriving Repr

/-- A JSON response: status code and body content; headers are attached
    later by middleware. -/
structure Response where
  status_code : Nat
  content : Json
  headers : List (String × String) := []
deriving Repr

/-- `app.core.exceptions.AppException`: message, HTTP status code, details
    mapping (after `__init__` normalisation). -/
structure AppException where
  message : String
  status_code : Nat
  details : List (String × Json)
deriving Repr

/-- `AppException.__init__`: `status_code` defaults to 500 and
    `self.details = details or {}` coerces a missing details mapping to the
    empty dict. -/
def AppException.make (message : String) (status_code : Nat := 500)
    (details : Option (List (String × Json)) := none) : AppException :=
  { message := message, status_code := status_code, details := details.getD [] }

/-- `starlette.exceptions.HTTPException`: a status code and a plain-string
    detail. -/
structure StarletteHTTPException where
  status_code : Nat
  detail : String
deriving Repr

/-- `getattr(request.state, "request_id", "unknown")`: the correlation id
    attached to the request state, or the literal sentinel. -/
def state_request_id (st : Option String) : String :=
  st.getD "unknown"

/-- `app_exception_handler` of `app/core/error_handlers.py`: logs at error
    severity and returns the envelope with the exception's message, details
    and the correlation id, under the exception's own status code. -/
def app_exception_handler (st : Option String) (exc : AppException) :
    Response × LogEntry :=
  let request_id := state_request_id st
  let log : LogEntry :=
    { level := .error
      message := "Application error: " ++ exc.message
      extra := [("request_id", .str request_id),
                ("status_code", .num exc.status_code),
                ("details", .obj exc.details)] }
  ({ status_code := exc.status_code
     content := .obj [("success", .bool false),
       ("error", .obj [("message", .str exc.message),
                       ("details", .obj exc.details),
                       ("request_id", .str request_id)])] },
   log)

/-- `http_exception_handler` of `app/core/error_handlers.py`: logs at
    warning severity and returns the envelope with the exception's detail
    as message, no details key, under the exception's own status code. -/
def http_exception_handler (st : Option String) (exc : StarletteHTTPException) :
    Response × LogEntry :=
  let request_id := state_request_id st
  let log : LogEntry :=
    { level := .warning
      message := "HTTP error: " ++ exc.detail
      extra := [("request_id", .str request_id),
                ("status_code", .num exc.status_code)] }
  ({ status_code := exc.status_code
     content := .obj [("success", .bool false),
       ("error", .obj [("message", .str exc.detail),
                       ("request_id", .str request_id)])] },
   log)

/-- `validation_exception_handler` of `app/core/error_handlers.py`:
    `exc.errors()` is the structured list of field-level violations; logs at
    warning severity with the list and returns the envelope with the fixed
    message and the list as details, status 422. -/
def validation_exception_handler (st : Option String) (errors : List Json) :
    Response × LogEntry :=
  let request_id := state_request_id st
  let log : LogEntry :=
    { level := .warning
      message := "Validation error"
      extra := [("request_id", .str request_id),
                ("errors", .arr errors)] }
  ({ status_code := 422
     content := .obj [("success", .bool false),
       ("error", .obj [("message", .str "Validation error"),
                       ("details", .arr errors),
                       ("request_id", .str request_id)])] },
   log)

/-- `generic_exception_handler` of `app/core/error_handlers.py`: `exc_str`
    is `str(exc)`; logs at error severity with `exc_info=True` and returns
    the envelope with the fixed generic message and no details key,
    status 500. -/
def generic_exception_handler (st : Option String) (exc_str : String) :
    Response × LogEntry :=
  let request_id := state_request_id st
  let log : LogEntry :=
    { level := .error
      message := "Unexpected error: " ++ exc_str
      extra := [("request_id", .str request_id)]
      exc_info := true }
  ({ status_code := 500
     content := .obj [("success", .bool false),
       ("error", .obj [("message", .str "Internal server error"),
                       ("request_id", .str request_id)])] },
   log)

/-- The uniform top-level error envelope shape
    `\x7bsuccess: false, error: \x7bmessage, details?, request_id\x7d\x7d`
    with the given request id: `success` is the literal `false`,
    `error.message` is some string, `error.details` is optionally present,
    and `error.request_id` is the string `rid`. -/
def errorEnvelopeShape (body : Json) (rid : String) : Prop :=
  ∃ (msg : String) (dets : Option Json),
    body = .obj [("success", .bool false),
      ("error", .obj ([("message", .str msg)] ++
        (match dets with
         | some d => [("details", d)]
         | none => []) ++
        [("request_id", .str rid)]))]

/-- Lookup of a key inside the envelope's `error` object. -/
def errorField (r : Response) (k : String) : Option Json :=
  (r.content.getField "error").bind (fun e => e.getField k)

/-- C1: every one of the four error paths produces the exact same top-level
    envelope shape, with `success` the literal `false`, `error.message` a
    string, and `error.request_id` the correlation id attached to the
    request state, or the literal "unknown" when none was attached — never
    null or absent. -/
theorem c1_uniform_error_envelope
    (st : Option String) (a : AppException) (h : StarletteHTTPException)
    (errs : List Json) (exc_str : String) :
    errorEnvelopeShape (app_exception_handler st a).1.content (state_request_id st) ∧
    errorEnvelopeShape (http_exception_handler st h).1.content (state_request_id st) ∧
    errorEnvelopeShape (validation_exception_handler st errs).1.content (state_request_id st) ∧
    errorEnvelopeShape (generic_exception_handler st exc_str).1.content (state_request_id st) := by
  refine ⟨⟨a.message, some (.obj a.details), rfl⟩,
          ⟨h.detail, none, rfl⟩,
          ⟨"Validation error", some (.arr errs), rfl⟩,
          ⟨"Internal server error", none, rfl⟩⟩

/-- C4: the generic handler returns status 500, the exact fixed message
    "Internal server error", no details key (nothing from the exception
    reaches the caller), the correlation id attached, and logs the failure
    at error severity with full diagnostic context (`str(exc)` in the
    message, `exc_info=True`). -/
theorem c4_generic_handler (st : Option String) (exc_str : String) :
    (generic_exception_handler st exc_str).1.status_code = 500 ∧
    errorField (generic_exception_handler st exc_str).1 "message"
      = some (.str "Internal server error") ∧
    errorField (generic_exception_handler st exc_str).1 "details" = none ∧
    errorField (generic_exception_handler st exc_str).1 "request_id"
      = some (.str (state_request_id st)) ∧
    (generic_exception_handler st exc_str).2.level = .error ∧
    (generic_exception_handler st exc_str).2.message
      = "Unexpected error: " ++ exc_str ∧
    (generic_exception_handler st exc_str).2.exc_info = true := by
  refine ⟨rfl, rfl, rfl, rfl, rfl, rfl, rfl⟩

/-- C5: the validation handler returns status 422, the exact fixed message
    "Validation error", the structured violation list as details, the
    correlation id attached, and logs the failure at warning severity with
    the violation list. -/
theorem c5_validation_handler (st : Option String) (errs : List Json) :
    (validation_exception_handler st errs).1.status_code = 422 ∧
    errorField (validation_exception_handler st errs).1 "message"
      = some (.str "Validation error") ∧
    errorField (validation_exception_handler st errs).1 "details"
      = some (.arr errs) ∧
    errorField (validation_exception_handler st errs).1 "request_id"
      = some (.str (state_request_id st)) ∧
    (validation_exception_handler st errs).2.level = .warning ∧
    ("errors", Json.arr errs) ∈ (validation_exception_handler st errs).2.extra := by
  refine ⟨rfl, rfl, rfl, rfl, rfl, ?_⟩
  simp [validation_exception_handler]

/-- C9: `AppException.__init__` coerces a missing details mapping to the
    empty dict, so the domain-error envelope always carries a `details` key
    holding a mapping, while the HTTP and generic paths omit the `details`
    key from the envelope entirely. -/
theorem c9_details_presence (st : Option String) (msg : String) (sc : Nat)
    (h : StarletteHTTPException) (exc_str : String) :
    (AppException.make msg sc none).details = [] ∧
    (∀ d, (AppException.make msg sc (some d)).details = d) ∧
    (∀ e : AppException,
      errorField (app_exception_handler st e).1 "details" = some (.obj e.details)) ∧
    errorField (http_exception_handler st h).1 "details" = none ∧
    errorField (generic_exception_handler st exc_str).1 "details" = none := by
  refine ⟨rfl, fun d => rfl, fun e => rfl, rfl, rfl⟩

/-- Python `str.lower()` on the character sequence (ASCII case mapping). -/
def py_lower (s : String) : String :=
  ⟨s.data.map Char.toLower⟩

/-- Python `str.upper()` on the character sequence (ASCII case mapping). -/
def py_upper (s : String) : String :=
  ⟨s.data.map Char.toUpper⟩

/-- The `allowed` list of `Settings.validate_environment`. -/
def allowed_environments : List String :=
  ["development", "staging", "production"]

/-- The `allowed` list of `Settings.validate_log_level`. -/
def allowed_log_levels : List String :=
  ["DEBUG", "INFO", "WARNING", "ERROR", "CRITICAL"]

/-- `Settings.validate_environment` of `app/core/config.py`: raises a
    ValueError unless `v.lower()` is in the allowed list, else returns
    `v.lower()`. -/
def validate_environment (v : String) : Except String String :=
  if py_lower v ∈ allowed_environments then .ok (py_lower v)
  else .error "ENVIRONMENT must be one of [\x27development\x27, \x27staging\x27, \x27production\x27]"

/-- `Settings.validate_log_level` of `app/core/config.py`: raises a
    ValueError unless `v.upper()` is in the allowed list, else returns
    `v.upper()`. -/
def validate_log_level (v : String) : Except String String :=
  if py_upper v ∈ allowed_log_levels then .ok (py_upper v)
  else .error "LOG_LEVEL must be one of [\x27DEBUG\x27, \x27INFO\x27, \x27WARNING\x27, \x27ERROR\x27, \x27CRITICAL\x27]"

/-- The `Settings` model of `app/core/config.py` (the fields the pipeline
    reads), with the code's defaults. -/
structure Settings where
  APP_NAME : String := "fastapi-cicd"
  APP_VERSION : String := "1.0.0"
  ENVIRONMENT : String := "development"
  DEBUG : Bool := false
  API_V1_PREFIX : String := "/api/v1"
  CORS_ORIGINS : List String := ["http://localhost:3000", "http://localhost:8000"]
  CORS_ALLOW_CREDENTIALS : Bool := true
  CORS_ALLOW_METHODS : List String := ["*"]
  CORS_ALLOW_HEADERS : List String := ["*"]
  LOG_LEVEL : String := "INFO"
  LOG_FORMAT : String := "json"
  ALLOWED_HOSTS : List String := ["*"]
  RATE_LIMIT_ENABLED : Bool := true
  RATE_LIMIT_PER_MINUTE : Nat := 60
deriving Repr

/-- Construction of `Settings` from the ENVIRONMENT and LOG_LEVEL inputs:
    the pydantic field validators run on the supplied values and any
    validator failure aborts construction (pydantic aggregates per-field
    errors; here the first failure is reported). -/
def Settings.construct (environment log_level : String) : Except String Settings :=
  match validate_environment environment with
  | .error e => .error e
  | .ok envValue =>
    match validate_log_level log_level with
    | .error e => .error e
    | .ok levelValue => .ok { ENVIRONMENT := envValue, LOG_LEVEL := levelValue }

/-- C6 counterexample: "PRODUCTION" is outside the literal set
    \x7bdevelopment, staging, production\x7d, yet settings construction
    succeeds (the validator lowercases before checking), refuting the claim
    that any value outside that set aborts startup. -/
theorem c6_counterexample :
    "PRODUCTION" ∉ allowed_environments ∧
    Settings.construct "PRODUCTION" "INFO"
      = .ok { ENVIRONMENT := "production", LOG_LEVEL := "INFO" } := by
  exact ⟨by decide, rfl⟩

/-- C6 amended: if ENVIRONMENT lowercases to a value outside
    \x7bdevelopment, staging, production\x7d, or LOG_LEVEL uppercases to a
    value outside \x7bDEBUG, INFO, WARNING, ERROR, CRITICAL\x7d, settings
    construction fails with a descriptive error naming the allowed set;
    the invalid value is never silently replaced by a default. -/
theorem c6_invalid_config_fails (env ll : String)
    (h : py_lower env ∉ allowed_environments ∨ py_upper ll ∉ allowed_log_levels) :
    ∃ msg, Settings.construct env ll = .error msg ∧
      (msg = "ENVIRONMENT must be one of [\x27development\x27, \x27staging\x27, \x27production\x27]" ∨
       msg = "LOG_LEVEL must be one of [\x27DEBUG\x27, \x27INFO\x27, \x27WARNING\x27, \x27ERROR\x27, \x27CRITICAL\x27]") := by
  by_cases he : py_lower env ∈ allowed_environments
  · rcases h with h | h
    · exact absurd he h
    · refine ⟨_, ?_, Or.inr rfl⟩
      simp [Settings.construct, validate_environment, validate_log_level, he, h]
  · refine ⟨_, ?_, Or.inl rfl⟩
    simp [Settings.construct, validate_environment, he]

/-- C6 witness: construction with ENVIRONMENT "qa" fails with the
    descriptive ENVIRONMENT message. -/
theorem c6_invalid_config_fails_witness :
    (py_lower "qa" ∉ allowed_environments ∨ py_upper "INFO" ∉ allowed_log_levels) ∧
    (∃ msg, Settings.construct "qa" "INFO" = .error msg ∧
      (msg = "ENVIRONMENT must be one of [\x27development\x27, \x27staging\x27, \x27production\x27]" ∨
       msg = "LOG_LEVEL must be one of [\x27DEBUG\x27, \x27INFO\x27, \x27WARNING\x27, \x27ERROR\x27, \x27CRITICAL\x27]")) :=
  ⟨Or.inl (by decide), c6_invalid_config_fails "qa" "INFO" (Or.inl (by decide))⟩

/-- C10: settings validation is case-insensitive and normalizing: any value
    whose lowercasing is an allowed environment is accepted and stored
    lowercased, any value whose uppercasing is an allowed log level is
    accepted and stored uppercased, and every accepted value is a member of
    the canonical enumerated set. -/
theorem c10_case_insensitive_normalizing :
    (∀ v, py_lower v ∈ allowed_environments →
      validate_environment v = .ok (py_lower v)) ∧
    (∀ v r, validate_environment v = .ok r →
      r ∈ allowed_environments ∧ r = py_lower v) ∧
    (∀ v, py_upper v ∈ allowed_log_levels →
      validate_log_level v = .ok (py_upper v)) ∧
    (∀ v r, validate_log_level v = .ok r →
      r ∈ allowed_log_levels ∧ r = py_upper v) := by
  refine ⟨fun v hv => ?_, fun v r hr => ?_, fun v hv => ?_, fun v r hr => ?_⟩
  · simp [validate_environment, hv]
  · by_cases hv : py_lower v ∈ allowed_environments
    · simp [validate_environment, hv] at hr
      exact ⟨hr ▸ hv, hr.symm⟩
    · simp [validate_environment, hv] at hr
  · simp [validate_log_level, hv]
  · by_cases hv : py_upper v ∈ allowed_log_levels
    · simp [validate_log_level, hv] at hr
      exact ⟨hr ▸ hv, hr.symm⟩
    · simp [validate_log_level, hv] at hr

/-- C10 witness: "PRODUCTION" is accepted and stored as "production", and
    "debug" is accepted and stored as "DEBUG". -/
theorem c10_case_insensitive_normalizing_witness :
    (py_lower "PRODUCTION" ∈ allowed_environments ∧
      validate_environment "PRODUCTION" = .ok (py_lower "PRODUCTION")) ∧
    (py_upper "debug" ∈ allowed_log_levels ∧
      validate_log_level "debug" = .ok (py_upper "debug")) :=
  ⟨⟨by decide, c10_case_insensitive_normalizing.1 "PRODUCTION" (by decide)⟩,
   ⟨by decide, c10_case_insensitive_normalizing.2.2.1 "debug" (by decide)⟩⟩

/-- Setting `response.headers[k] = v` (Starlette MutableHeaders set-item):
    replace existing entries for the key, else append. -/
def set_header (hs : List (String × String)) (k v : String) :
    List (String × String) :=
  if hs.any (fun p => p.1 = k) then
    hs.map (fun p => if p.1 = k then (k, v) else p)
  else hs ++ [(k, v)]

/-- Header lookup (first occurrence of the key). -/
def get_header (hs : List (String × String)) (k : String) : Option String :=
  (hs.find? (fun p => p.1 = k)).map (fun p => p.2)

/-- `RequestIDMiddleware.dispatch` of `app/core/middleware.py`: generates a
    fresh correlation id (`str(uuid.uuid4())`, supplied here by the id
    source as `fresh_id`), attaches it to `request.state.request_id` before
    invoking the rest of the pipeline, and sets the `X-Request-ID` header on
    whatever response comes back. -/
def RequestIDMiddleware.dispatch (fresh_id : String)
    (call_next : Option String → Response) : Response :=
  let response := call_next (some fresh_id)
  { response with
    headers := set_header response.headers "X-Request-ID" fresh_id }

theorem find?_set_after_map (t : List (String × String)) (k v : String) :
    (t.map (fun p => if p.1 = k then (k, v) else p)).find?
        (fun p => p.1 = k)
      = if t.any (fun p => p.1 = k) then some (k, v) else none := by
  induction t with
  | nil => rfl
  | cons p t ih =>
    by_cases hp : p.1 = k
    · simp [List.find?_cons, hp]
    · have hd : decide (p.1 = k) = false := decide_eq_false hp
      rw [List.map_cons, List.any_cons, hd, Bool.false_or, if_neg hp,
          List.find?_cons_of_neg _ (by simpa using hp)]
      exact ih

theorem find?_append_single (t : List (String × String)) (k v : String)
    (h : t.any (fun p => p.1 = k) = false) :
    (t ++ [(k, v)]).find? (fun p => p.1 = k) = some (k, v) := by
  induction t with
  | nil => simp [List.find?]
  | cons p t ih =>
    simp only [List.any_cons, Bool.or_eq_false_iff] at h
    have hp : ¬ p.1 = k := by simpa using h.1
    simp [List.find?_cons, hp, ih h.2]

theorem get_header_set_header (hs : List (String × String)) (k v : String) :
    get_header (set_header hs k v) k = some v := by
  unfold get_header set_header
  by_cases h : hs.any (fun p => p.1 = k)
  · rw [if_pos h, find?_set_after_map, if_pos h]
    rfl
  · rw [if_neg h]
    have hfalse : hs.any (fun p => p.1 = k) = false := by
      cases hany : hs.any (fun p => p.1 = k)
      · rfl
      · exact absurd hany h
    rw [find?_append_single hs k v hfalse]
    rfl

/-- C2: for every request and every downstream pipeline (success or error),
    the response of the request-id middleware carries an `X-Request-ID`
    header equal to the fresh id generated for that request; when the id is
    non-empty (a UUID string always is) the header value is non-empty; for
    each of the four error paths run downstream, the body's
    `error.request_id` equals the header value; and requests given
    pairwise-distinct fresh ids end up with pairwise-distinct header
    values. -/
theorem c2_request_id_header (fresh_id : String) (hne : fresh_id ≠ "")
    (call_next : Option String → Response)
    (ids : List String) (hdistinct : ids.Pairwise (· ≠ ·)) :
    get_header (RequestIDMiddleware.dispatch fresh_id call_next).headers
      "X-Request-ID" = some fresh_id ∧
    (∀ r, get_header (RequestIDMiddleware.dispatch fresh_id call_next).headers
      "X-Request-ID" = some r → r ≠ "") ∧
    (∀ a : AppException,
      errorField (RequestIDMiddleware.dispatch fresh_id
        (fun st => (app_exception_handler st a).1)) "request_id"
      = some (.str fresh_id)) ∧
    (∀ h : StarletteHTTPException,
      errorField (RequestIDMiddleware.dispatch fresh_id
        (fun st => (http_exception_handler st h).1)) "request_id"
      = some (.str fresh_id)) ∧
    (∀ errs : List Json,
      errorField (RequestIDMiddleware.dispatch fresh_id
        (fun st => (validation_exception_handler st errs).1)) "request_id"
      = some (.str fresh_id)) ∧
    (∀ exc_str : String,
      errorField (RequestIDMiddleware.dispatch fresh_id
        (fun st => (generic_exception_handler st exc_str).1)) "request_id"
      = some (.str fresh_id)) ∧
    (ids.map (fun i =>
      get_header (RequestIDMiddleware.dispatch i call_next).headers
        "X-Request-ID")).Pairwise (· ≠ ·) := by
  have hmain : ∀ (cn : Option String → Response) (i : String),
      get_header (RequestIDMiddleware.dispatch i cn).headers
        "X-Request-ID" = some i := by
    intro cn i
    unfold RequestIDMiddleware.dispatch
    exact get_header_set_header _ _ _
  refine ⟨hmain call_next fresh_id, ?_, fun a => rfl, fun h => rfl,
    fun errs => rfl, fun exc_str => rfl, ?_⟩
  · intro r hr
    rw [hmain call_next fresh_id] at hr
    cases hr
    exact hne
  · rw [List.pairwise_map]
    refine hdistinct.imp ?_
    intro a b hab
    rw [hmain call_next a, hmain call_next b]
    intro hcontra
    exact hab (Option.some.inj hcontra)

/-- A success-capable downstream pipeline (a plain 200 response) used to
    witness C2. -/
def demo_success_next (_st : Option String) : Response :=
  { status_code := 200, content := Json.null }

/-- C2 witness at a concrete fresh id, a success pipeline and a concrete id
    supply: the header is set even on a success response, and the app-error
    path echoes the header value in the body. -/
theorem c2_request_id_header_witness :
    ("req-1" ≠ "" ∧
      (["id-a", "id-b"] : List String).Pairwise (· ≠ ·)) ∧
    (get_header (RequestIDMiddleware.dispatch "req-1"
        demo_success_next).headers "X-Request-ID" = some "req-1" ∧
     errorField (RequestIDMiddleware.dispatch "req-1"
        (fun st => (app_exception_handler st (AppException.make "boom")).1))
       "request_id" = some (.str "req-1")) := by
  have h := c2_request_id_header "req-1" (by decide) demo_success_next
    ["id-a", "id-b"] (List.pairwise_pair.mpr (by decide))
  exact ⟨⟨by decide, List.pairwise_pair.mpr (by decide)⟩,
         h.1, h.2.2.1 (AppException.make "boom")⟩

/-- `LoggingMiddleware.dispatch` of `app/core/middleware.py`: logs a
    "Request started" entry (correlation id, method, path, client host)
    before invoking the rest of the pipeline; if the handler raises, logs a
    "Request failed" entry including `str(e)` with `exc_info=True` and
    re-raises; otherwise logs a "Request completed" entry with the status
    code and the elapsed duration (`round(time.time() - start_time, 4)`,
    supplied here as `duration`). The result of the inner pipeline is
    `call_next` (a raised exception carries `str(e)`). -/
def LoggingMiddleware.dispatch (st : Option String) (method path : String)
    (client_host : Option String) (duration : Nat)
    (call_next : Except String Response) :
    Except String Response × List LogEntry :=
  let request_id := state_request_id st
  let startEntry : LogEntry :=
    { level := .info
      message := "Request started"
      extra := [("request_id", .str request_id),
                ("method", .str method),
                ("path", .str path),
                ("client_host",
                  match client_host with
                  | some h => .str h
                  | none => .null)] }
  match call_next with
  | .error e =>
      (.error e,
       [startEntry,
        { level := .error
          message := "Request failed"
          extra := [("request_id", .str request_id),
                    ("method", .str method),
                    ("path", .str path),
                    ("error", .str e)]
          exc_info := true }])
  | .ok response =>
      (.ok response,
       [startEntry,
        { level := .info
          message := "Request completed"
          extra := [("request_id", .str request_id),
                    ("method", .str method),
                    ("path", .str path),
                    ("status_code", .num response.status_code),
                    ("duration_seconds", .num duration)] }])

/-- C7: the access logger emits exactly one "Request started" entry, first,
    carrying the correlation id, method, path and client host; exactly one
    completion-or-failure entry afterwards; and when the handler raises, a
    "Request failed" entry carrying the error's string representation is
    still emitted while the exception propagates onward unchanged. -/
theorem c7_access_logging (st : Option String) (method path : String)
    (client_host : Option String) (duration : Nat)
    (call_next : Except String Response) :
    ((LoggingMiddleware.dispatch st method path client_host duration
        call_next).2.countP
      (fun e => e.message == "Request started") = 1) ∧
    ((LoggingMiddleware.dispatch st method path client_host duration
        call_next).2.countP
      (fun e => e.message == "Request completed"
        || e.message == "Request failed") = 1) ∧
    ((LoggingMiddleware.dispatch st method path client_host duration
        call_next).2.head? = some
      { level := .info
        message := "Request started"
        extra := [("request_id", .str (state_request_id st)),
                  ("method", .str method),
                  ("path", .str path),
                  ("client_host",
                    match client_host with
                    | some h => .str h
                    | none => .null)] }) ∧
    (∀ e, call_next = .error e →
      (LoggingMiddleware.dispatch st method path client_host duration
        call_next).1 = .error e ∧
      ∃ fe ∈ (LoggingMiddleware.dispatch st method path client_host duration
        call_next).2,
        fe.message = "Request failed" ∧ fe.level = .error ∧
        ("error", Json.str e) ∈ fe.extra) ∧
    (∀ r, call_next = .ok r →
      (LoggingMiddleware.dispatch st method path client_host duration
        call_next).1 = .ok r) := by
  cases call_next with
  | error e0 =>
    refine ⟨rfl, rfl, rfl, ?_, ?_⟩
    · intro e he
      cases he
      refine ⟨rfl, ?_⟩
      refine ⟨{ level := .error
                message := "Request failed"
                extra := [("request_id", .str (state_request_id st)),
                          ("method", .str method),
                          ("path", .str path),
                          ("error", .str e0)]
                exc_info := true }, ?_, rfl, rfl, ?_⟩
      · simp [LoggingMiddleware.dispatch]
      · simp
    · intro r hr
      cases hr
  | ok r0 =>
    refine ⟨rfl, rfl, rfl, ?_, fun r hr => by cases hr; rfl⟩
    intro e he
    cases he

/-- C7 witness: a failing handler at concrete inputs still produces the
    start entry, one failure entry with the error string, and the exception
    propagates. -/
theorem c7_access_logging_witness :
    ((LoggingMiddleware.dispatch none "GET" "/api/v1/health" none 0
        (.error "boom")).2.countP
      (fun e => e.message == "Request started") = 1) ∧
    ((LoggingMiddleware.dispatch none "GET" "/api/v1/health" none 0
        (.error "boom")).1 = .error "boom") ∧
    (∃ fe ∈ (LoggingMiddleware.dispatch none "GET" "/api/v1/health" none 0
        (.error "boom")).2,
      fe.message = "Request failed" ∧ fe.level = .error ∧
      ("error", Json.str "boom") ∈ fe.extra) := by
  have h := c7_access_logging none "GET" "/api/v1/health" none 0
    (.error "boom")
  exact ⟨h.1, (h.2.2.2.1 "boom" rfl).1, (h.2.2.2.1 "boom" rfl).2⟩

/-- The middleware classes registered by `setup_middleware` of
    `app/core/middleware.py`. -/
inductive Middleware where
  | trustedHost | cors | logging | requestID
deriving DecidableEq, Repr

/-- `app.add_middleware` (Starlette): the middleware is prepended, i.e. the
    last-added middleware is the outermost and runs first on a request. -/
def add_middleware (stack : List Middleware) (m : Middleware) :
    List Middleware :=
  m :: stack

/-- `setup_middleware` of `app/core/middleware.py`: TrustedHost (only when
    `ALLOWED_HOSTS != ["*"]`), then CORS, then LoggingMiddleware, then
    RequestIDMiddleware. The resulting stack is listed outermost first. -/
def setup_middleware (s : Settings) : List Middleware :=
  let stack : List Middleware := []
  let stack :=
    if s.ALLOWED_HOSTS ≠ ["*"] then add_middleware stack .trustedHost
    else stack
  let stack := add_middleware stack .cors
  let stack := add_middleware stack .logging
  add_middleware stack .requestID

/-- Observable pipeline stages, in the order a request experiences them. -/
inductive Event where
  | correlationId   -- RequestIDMiddleware assigns the request id
  | logStart        -- LoggingMiddleware logs "Request started"
  | corsHandling    -- CORSMiddleware processes the incoming request
  | hostValidation  -- TrustedHostMiddleware checks the Host header
  | dispatch        -- the router invokes a handler
  | corsInject      -- CORSMiddleware adds response headers
  | logEnd          -- LoggingMiddleware logs completion/failure
deriving DecidableEq, Repr

/-- An inbound request as the middleware stack sees it. -/
structure Request where
  host : String
  method : String
  path : String
  origin : Option String := none
  state_rid : Option String := none
deriving Repr

/-- Modelled from the spec: `TrustedHostMiddleware` (Starlette, not among
    the sources) rejects requests whose Host header is not in the allow-list
    with an HTTP 400-class rejection before reaching the router; a `*` entry
    disables the check. -/
def host_allowed (allowed : List String) (host : String) : Bool :=
  allowed.contains "*" || allowed.contains host

/-- Modelled from the spec: `CORSMiddleware` (Starlette, not among the
    sources) answers preflight (OPTIONS with an Origin) immediately without
    reaching the router, and otherwise injects the cross-origin response
    headers into whatever response the inner pipeline produced. The per-
    middleware small-step: each middleware receives the request and the
    inner pipeline, and produces the response with the trace of observable
    events, outermost event first. -/
def run_middleware (s : Settings) (fresh_id : String) :
    Middleware → Request → (Request → Response × List Event) →
    Response × List Event
  | .requestID, req, next =>
      let result := next { req with state_rid := some fresh_id }
      ({ result.1 with
         headers := set_header result.1.headers "X-Request-ID" fresh_id },
       .correlationId :: result.2)
  | .logging, req, next =>
      let result := next req
      (result.1, .logStart :: (result.2 ++ [.logEnd]))
  | .cors, req, next =>
      if req.method = "OPTIONS" ∧ req.origin.isSome then
        ({ status_code := 200, content := .null }, [.corsHandling, .corsInject])
      else
        let result := next req
        (result.1, .corsHandling :: (result.2 ++ [.corsInject]))
  | .trustedHost, req, next =>
      if host_allowed s.ALLOWED_HOSTS req.host then
        let result := next req
        (result.1, .hostValidation :: result.2)
      else
        ({ status_code := 400, content := .str "Invalid host header" },
         [.hostValidation])

/-- Running a middleware stack (outermost first) around an inner
    application. -/
def run_stack (s : Settings) (fresh_id : String) :
    List Middleware → Request → (Request → Response × List Event) →
    Response × List Event
  | [], req, app => app req
  | m :: rest, req, app =>
      run_middleware s fresh_id m req
        (fun r => run_stack s fresh_id rest r app)

/-- The router reached: application logic runs. -/
def route_dispatch (_req : Request) : Response × List Event :=
  ({ status_code := 200, content := .null }, [Event.dispatch])

/-- One request through the configured middleware stack around the
    router. -/
def handle_request (s : Settings) (fresh_id : String) (req : Request) :
    Response × List Event :=
  run_stack s fresh_id (setup_middleware s) req route_dispatch

/-- A configuration with a host allow-list (TrustedHost enabled). -/
def guarded_settings : Settings :=
  { ALLOWED_HOSTS := ["example.com"] }

/-- A plain GET request from an allowed host. -/
def sample_request : Request :=
  { host := "example.com", method := "GET", path := "/api/v1/health" }

/-- C3 counterexample: with a host allow-list configured, the trace of a
    plain request is correlation id, log start, CORS handling, host
    validation, dispatch — CORS request handling is entered strictly before
    host validation (Starlette runs the last-added middleware outermost and
    `setup_middleware` adds TrustedHost first), refuting the claimed order
    "… host validation, then CORS handling, then dispatch". -/
theorem c3_counterexample :
    (handle_request guarded_settings "id-1" sample_request).2
      = [.correlationId, .logStart, .corsHandling, .hostValidation,
         .dispatch, .corsInject, .logEnd] ∧
    ¬ ((handle_request guarded_settings "id-1" sample_request).2.indexOf
        Event.hostValidation
      < (handle_request guarded_settings "id-1" sample_request).2.indexOf
        Event.corsHandling) := by
  exact ⟨rfl, by decide⟩

/-- C3 amended: for every request through the configured stack the stages
    run in the fixed order correlation-id assignment, access-log start,
    CORS request handling, host validation, dispatch; host validation still
    occurs before CORS response-header injection and before the router, and
    a host-rejected request never reaches application logic (no dispatch,
    status 400). -/
theorem c3_pipeline_order (s : Settings) (fresh_id : String) (req : Request)
    (hguard : s.ALLOWED_HOSTS ≠ ["*"])
    (hhost : host_allowed s.ALLOWED_HOSTS req.host = true)
    (hplain : ¬ (req.method = "OPTIONS" ∧ req.origin.isSome)) :
    (handle_request s fresh_id req).2
      = [.correlationId, .logStart, .corsHandling, .hostValidation,
         .dispatch, .corsInject, .logEnd] ∧
    (∀ req2 : Request, host_allowed s.ALLOWED_HOSTS req2.host = false →
      ¬ (req2.method = "OPTIONS" ∧ req2.origin.isSome) →
      (handle_request s fresh_id req2).2
        = [.correlationId, .logStart, .corsHandling, .hostValidation,
           .corsInject, .logEnd] ∧
      Event.dispatch ∉ (handle_request s fresh_id req2).2 ∧
      (handle_request s fresh_id req2).1.status_code = 400) := by
  constructor
  · simp [handle_request, setup_middleware, add_middleware, run_stack,
      run_middleware, route_dispatch, hguard, hhost, hplain]
  · intro req2 hbad hplain2
    refine ⟨?_, ?_, ?_⟩ <;>
      simp [handle_request, setup_middleware, add_middleware, run_stack,
        run_middleware, route_dispatch, hguard, hbad, hplain2]

/-- A GET request from a host outside the allow-list. -/
def rejected_request : Request :=
  { host := "evil.example.net", method := "GET", path := "/api/v1/health" }

/-- C3 witness: the amended order at the guarded configuration, an allowed
    request and a rejected request. -/
theorem c3_pipeline_order_witness :
    (guarded_settings.ALLOWED_HOSTS ≠ ["*"] ∧
      host_allowed guarded_settings.ALLOWED_HOSTS sample_request.host = true ∧
      ¬ (sample_request.method = "OPTIONS" ∧ sample_request.origin.isSome) ∧
      host_allowed guarded_settings.ALLOWED_HOSTS rejected_request.host
        = false ∧
      ¬ (rejected_request.method = "OPTIONS" ∧
          rejected_request.origin.isSome)) ∧
    ((handle_request guarded_settings "id-1" sample_request).2
      = [.correlationId, .logStart, .corsHandling, .hostValidation,
         .dispatch, .corsInject, .logEnd] ∧
     Event.dispatch ∉ (handle_request guarded_settings "id-1"
        rejected_request).2 ∧
     (handle_request guarded_settings "id-1" rejected_request).1.status_code
        = 400) := by
  have h := c3_pipeline_order guarded_settings "id-1" sample_request
    (by decide) (by decide) (by decide)
  have h2 := h.2 rejected_request (by decide) (by decide)
  exact ⟨⟨by decide, by decide, by decide, by decide, by decide⟩,
         h.1, h2.2.1, h2.2.2⟩

/-- The health payload of `app/models/schemas.py` (`HealthCheckResponse`);
    the timestamp default is the current UTC time, supplied here as
    `timestamp`. -/
structure HealthCheckResponse where
  status : String
  timestamp : Nat
  version : String
  environment : String
deriving Repr

/-- Modelled from the spec: `app.__version__` (the `app/__init__.py` module
    is not among the sources). The spec states the health payload's
    `version` equals the configured app version, so the module constant is
    modelled as the configuration's APP_VERSION. -/
def app_dunder_version (s : Settings) : String :=
  s.APP_VERSION

/-- `health_check` of `app/api/v1/endpoints/health.py`: the route is
    registered with status 200 and returns
    `HealthCheckResponse(status="healthy", version=__version__,
    environment=settings.ENVIRONMENT)`. -/
def health_check (s : Settings) (now : Nat) : Nat × HealthCheckResponse :=
  (200,
   { status := "healthy"
     timestamp := now
     version := app_dunder_version s
     environment := s.ENVIRONMENT })

/-- C8: GET /health always succeeds with status 200, a body whose status
    field is "healthy" and whose version and environment equal the loaded
    configuration's app version and environment. -/
theorem c8_health_check (s : Settings) (now : Nat) :
    (health_check s now).1 = 200 ∧
    (health_check s now).2.status = "healthy" ∧
    (health_check s now).2.version = s.APP_VERSION ∧
    (health_check s now).2.environment = s.ENVIRONMENT :=
  ⟨rfl, rfl, rfl, rfl⟩
